import Mathlib

/-!
# xhttp: problem responses, the handler adapter, the logging decorator, graceful shutdown

A shallow embedding of `errors.go`, `handler.go`, `middleware/logging.go` and
`graceful_shotdown.go`.

Conventions of the embedding:

* Go `int` is `Int`; Go `string` is `String` (so only valid UTF-8 text is covered).
* A response sink (`http.ResponseWriter`) is an explicit state, `ResponseWriter`, threaded
  through every call; its transitions follow the contract of `net/http`.
* A Go `error` is a value of `GoError`; `nil` is `Option.none`.
* Wall-clock values (`time.Now`, `time.Since`) and stack traces are left out of log records.
-/

namespace xhttp

/-! ## Go values and `encoding/json` -/

/-- A Go value as far as `encoding/json` distinguishes it. `null` is a typed nil (nil pointer,
nil slice, nil map); `struct` lists the exported fields under their JSON names in declaration
order; `unsupported` stands for any value `json.Marshal` rejects (channel, function, complex). -/
inductive GoValue where
  | null
  | bool (b : Bool)
  | int (i : Int)
  | str (s : String)
  | slice (elems : List GoValue)
  | struct (fields : List (String × GoValue))
  | unsupported (typeName : String)

/-- One character of a JSON string literal as `encoding/json` writes it with HTML escaping on
(the default of `json.NewEncoder`): quote and backslash are backslash-escaped, `\b \f \n \r \t`
use their short forms, other control characters and `< > &` become `\u00XX`, U+2028 and U+2029
are written as their six-character unicode escapes, everything else is copied. -/
def escapeChar (c : Char) : String :=
  let b := c.toNat
  if b = 34 then "\\\""
  else if b = 92 then "\\\\"
  else if b = 8 then "\\b"
  else if b = 12 then "\\f"
  else if b = 10 then "\\n"
  else if b = 13 then "\\r"
  else if b = 9 then "\\t"
  else if b < 32 ∨ b = 60 ∨ b = 62 ∨ b = 38 then
    "\\u00" ++ String.mk [Nat.digitChar (b / 16), Nat.digitChar (b % 16)]
  else if b = 8232 then "\\u2028"
  else if b = 8233 then "\\u2029"
  else String.mk [c]

/-- The JSON string literal for `s` (`appendString` of `encoding/json`). -/
def appendString (s : String) : String :=
  "\"" ++ s.toList.foldl (fun acc c => acc ++ escapeChar c) "" ++ "\""

mutual
/-- The text `json.Marshal` produces, or the message of the error it returns. -/
def marshal : GoValue → Except String String
  | .null => .ok "null"
  | .bool b => .ok (if b then "true" else "false")
  | .int i => .ok (toString i)
  | .str s => .ok (appendString s)
  | .slice elems => (marshalElems elems).map (fun s => "[" ++ s ++ "]")
  | .struct fields => (marshalFields fields).map (fun s => "\x7b" ++ s ++ "\x7d")
  | .unsupported typeName => .error ("json: unsupported type: " ++ typeName)
/-- The comma-separated elements of a JSON array. -/
def marshalElems : List GoValue → Except String String
  | [] => .ok ""
  | [v] => marshal v
  | v :: vs => do
    let a ← marshal v
    let b ← marshalElems vs
    pure (a ++ "," ++ b)
/-- The comma-separated members of a JSON object. -/
def marshalFields : List (String × GoValue) → Except String String
  | [] => .ok ""
  | [(k, v)] => (marshal v).map (fun s => appendString k ++ ":" ++ s)
  | (k, v) :: fs => do
    let a ← marshal v
    let b ← marshalFields fs
    pure (appendString k ++ ":" ++ a ++ "," ++ b)
end

/-! ## The response sink (`http.ResponseWriter`) -/

def StatusOK : Int := 200
def StatusSwitchingProtocols : Int := 101
def StatusNoContent : Int := 204
def StatusNotModified : Int := 304
def StatusBadRequest : Int := 400
def StatusUnauthorized : Int := 401
def StatusForbidden : Int := 403
def StatusNotFound : Int := 404
def StatusUnsupportedMediaType : Int := 415
def StatusInternalServerError : Int := 500
def StatusServiceUnavailable : Int := 503

/-- A header map (`http.Header`) with one value per key; keys are taken in canonical form. -/
abbrev Header := List (String × String)

/-- The value stored under `key`, as `Header.Get` (absent is `none`). -/
def Header.Get (h : Header) (key : String) : Option String :=
  (h.find? (fun kv => kv.1 == key)).map (fun kv => kv.2)

/-- The map after `Header.Set`: the entry for `key` is replaced. -/
def Header.Set (h : Header) (key value : String) : Header :=
  (key, value) :: h.filter (fun kv => !(kv.1 == key))

/-- State of a response sink of `net/http`.

* `isFlusher`, `isHijacker`: whether the dynamic type of the sink implements `http.Flusher`
  and `http.Hijacker`.
* `header`: the map `Header()` returns, which the handler may change at any time.
* `status`: the status code of the response, `none` until the status line is written.
* `sentHeader`: the headers that go out with the status line, a snapshot of `header` taken
  when the status is written; later changes of `header` are not part of the response. Headers
  the server adds on its own (`Date`, `Content-Length`, a sniffed `Content-Type`) are left out.
* `body`: the body text the sink has accepted so far, that is the text of every `Write` that
  returned a nil error. What of it goes out with the response is `sentBody`.
* `hijacked`: the connection was taken over through `Hijack`.
* `writeErr`: the error the connection reports for body writes, if it is broken.
* `isHead`: the request being answered has the method HEAD; the server then accepts every body
  write and sends none of it. It is false unless stated.

A `Content-Length` the handler declares in `header` is not enforced on later writes. -/
structure ResponseWriter where
  isFlusher : Bool
  isHijacker : Bool
  header : Header
  status : Option Int
  sentHeader : Header
  body : String
  hijacked : Bool
  writeErr : Option String
  isHead : Bool := false
  deriving DecidableEq, Repr

namespace ResponseWriter

/-- A sink on which nothing has been done yet, for a request whose method is not HEAD.
`fresh true false none` is the sink of the tests, `httptest.NewRecorder()`, which can flush but
cannot be hijacked. -/
def fresh (isFlusher isHijacker : Bool) (writeErr : Option String) : ResponseWriter :=
  { isFlusher := isFlusher, isHijacker := isHijacker, header := [], status := none,
    sentHeader := [], body := "", hijacked := false, writeErr := writeErr }

/-- The sink after `WriteHeader(statusCode)`. On a hijacked connection and after the status has
been written the call only logs and returns. A code outside 100..999 makes `net/http` raise a
fault before any state changes. An informational code (1xx other than 101) is sent at once
and the final status stays open. Any other code becomes the response status and the headers are
snapshotted. -/
def WriteHeader (w : ResponseWriter) (statusCode : Int) : ResponseWriter :=
  if w.hijacked then w
  else if w.status.isSome then w
  else if statusCode < 100 ∨ statusCode > 999 then w
  else if 100 ≤ statusCode ∧ statusCode ≤ 199 ∧ statusCode ≠ StatusSwitchingProtocols then w
  else { w with status := some statusCode, sentHeader := w.header }

/-- The sink after `Header().Set(key, value)`. -/
def headerSet (w : ResponseWriter) (key value : String) : ResponseWriter :=
  { w with header := w.header.Set key value }

/-- Whether a response with this status may carry a body (`bodyAllowedForStatus`). -/
def bodyAllowedForStatus (status : Int) : Bool :=
  if 100 ≤ status ∧ status ≤ 199 then false
  else if status = StatusNoContent then false
  else if status = StatusNotModified then false
  else true

/-- The sink after `Write(p)` and the error it returns. The first write on a sink without a
status writes status 200 implicitly. For a HEAD request the write is accepted without touching
the connection, so no connection error comes back. -/
def Write (w : ResponseWriter) (p : String) : ResponseWriter × Option String :=
  if w.hijacked then (w, some "http: connection has been hijacked")
  else
    let w := if w.status.isSome then w else w.WriteHeader StatusOK
    if p = "" then (w, none)
    else if !(bodyAllowedForStatus (w.status.getD StatusOK)) then
      (w, some "http: request method or response status code does not allow body")
    else match (if w.isHead then none else w.writeErr) with
      | some e => (w, some e)
      | none => ({ w with body := w.body ++ p }, none)

/-- The body that goes out with the response: the accepted text, and nothing for a HEAD
request. -/
def sentBody (w : ResponseWriter) : String :=
  if w.isHead then "" else w.body

/-- The sink after `Flush()`: an unwritten status is written as 200. -/
def Flush (w : ResponseWriter) : ResponseWriter :=
  w.WriteHeader StatusOK

/-- The sink after `Hijack()`: the caller owns the connection from here on. -/
def Hijack (w : ResponseWriter) : ResponseWriter :=
  { w with hijacked := true }

end ResponseWriter

/-! ## `errors.go`: the problem model -/

/-- The problem document; `Type_` is the field `Type` (a reserved word here). -/
structure ProblemDetail where
  Status : Int
  Type_ : String
  Title : String
  deriving DecidableEq, Repr

structure InvalidParam where
  Name : String
  Reason : String
  deriving DecidableEq, Repr

/-- The embedded `ProblemDetail` and the `InvalidParams` slice; `none` is the nil slice. -/
structure ValidationProblemDetail where
  toProblemDetail : ProblemDetail
  InvalidParams : Option (List InvalidParam)
  deriving DecidableEq, Repr

/-- The members `encoding/json` writes for a `ProblemDetail`, by its field tags. -/
def ProblemDetail.fields (d : ProblemDetail) : List (String × GoValue) :=
  [("status", .int d.Status), ("type", .str d.Type_), ("title", .str d.Title)]

/-- A `ProblemDetail` as seen by `encoding/json`. -/
def ProblemDetail.toGoValue (d : ProblemDetail) : GoValue :=
  .struct d.fields

/-- An `InvalidParam` as seen by `encoding/json`. -/
def InvalidParam.toGoValue (p : InvalidParam) : GoValue :=
  .struct [("name", .str p.Name), ("reason", .str p.Reason)]

/-- A `ValidationProblemDetail` as seen by `encoding/json`: the members of the embedded struct
are promoted, then `invalid-params`; a nil slice is written as `null`. -/
def ValidationProblemDetail.toGoValue (d : ValidationProblemDetail) : GoValue :=
  .struct (d.toProblemDetail.fields ++
    [("invalid-params", match d.InvalidParams with
      | none => .null
      | some ps => .slice (ps.map InvalidParam.toGoValue))])

/-- A non-nil Go `error`. The first three constructors are errors from outside the package:
`errors.New`, the sentinel `http.ErrServerClosed`, and the result of `fmt.Errorf` with `%w`
(its text and the error it wraps). The next seven are the error types of `errors.go`, named as
there. `custom` is any other type that implements `HttpProblemWriter`, given by its message and
by what its `WriteProblem` does to a sink. The cause held by `InternalServerError` and
`ServiceUnavailableError` is taken non-nil (a nil cause would fault in `Error`). -/
inductive GoError where
  | errorString (s : String)
  | ErrServerClosed
  | wrapError (msg : String) (err : GoError)
  | BadRequestError (invalidParams : Option (List InvalidParam))
  | UnauthorizedError (message : String)
  | ForbiddenError (message : String)
  | NotFoundError (message : String)
  | UnsupportedMediaType
  | InternalServerError (innerError : GoError)
  | ServiceUnavailableError (innerError : GoError)
  | custom (message : String) (writeProblem : ResponseWriter → ResponseWriter × Option String)

def NewBadRequestError (invalidParams : Option (List InvalidParam)) : GoError :=
  .BadRequestError invalidParams

def NewUnauthorizedError (message : String) : GoError :=
  .UnauthorizedError message

def NewForbiddenError (message : String) : GoError :=
  .ForbiddenError message

def NewNotFoundError (message : String) : GoError :=
  .NotFoundError message

def NewUnsupportedMediaType : GoError :=
  .UnsupportedMediaType

def NewInternalServerError (err : GoError) : GoError :=
  .InternalServerError err

def NewServiceUnavailableError (err : GoError) : GoError :=
  .ServiceUnavailableError err

/-- The text of `fmt.Sprintf("%v", invalidParams)`. -/
def sprintInvalidParams (invalidParams : Option (List InvalidParam)) : String :=
  "[" ++ " ".intercalate
    ((invalidParams.getD []).map (fun p => "\x7b" ++ p.Name ++ " " ++ p.Reason ++ "\x7d")) ++ "]"

/-- The method `Error()` of each error type. -/
def GoError.Error : GoError → String
  | .errorString s => s
  | .ErrServerClosed => "http: Server closed"
  | .wrapError msg _ => msg
  | .BadRequestError invalidParams => sprintInvalidParams invalidParams
  | .UnauthorizedError message => message
  | .ForbiddenError message => message
  | .NotFoundError message => message
  | .UnsupportedMediaType => "unsupported media type"
  | .InternalServerError innerError => innerError.Error
  | .ServiceUnavailableError innerError => innerError.Error
  | .custom message _ => message

/-- The error `fmt.Errorf(format + ": %w", err)` returns. -/
def Errorf (format : String) (err : GoError) : GoError :=
  .wrapError (format ++ ": " ++ err.Error) err

/-- Whether `errors.Is(err, http.ErrServerClosed)` holds: the chain of `Unwrap` is followed;
the error types of `errors.go` have no `Unwrap` method. -/
def GoError.isErrServerClosed : GoError → Bool
  | .ErrServerClosed => true
  | .wrapError _ err => err.isErrServerClosed
  | _ => false

/-- The sink after `json.NewEncoder(w).Encode(v)` and the error it returns: the value is
marshalled first and nothing is written when that fails; otherwise the text and a newline go to
the sink in one `Write`. -/
def Encode (w : ResponseWriter) (v : GoValue) : ResponseWriter × Option GoError :=
  match marshal v with
  | .error msg => (w, some (.errorString msg))
  | .ok text =>
    let r := w.Write (text ++ "\n")
    (r.1, r.2.map GoError.errorString)

def BadRequestError.WriteProblem (invalidParams : Option (List InvalidParam))
    (w : ResponseWriter) : ResponseWriter × Option GoError :=
  let w := w.WriteHeader StatusBadRequest
  let w := w.headerSet "Content-Type" "application/problem+json"
  let detail : ValidationProblemDetail :=
    { toProblemDetail :=
        { Status := StatusBadRequest
          Type_ := "https://datatracker.ietf.org/doc/html/rfc7231#section-6.5.1"
          Title := "Request parameters did not validate" }
      InvalidParams := invalidParams }
  Encode w detail.toGoValue

def UnauthorizedError.WriteProblem (message : String)
    (w : ResponseWriter) : ResponseWriter × Option GoError :=
  let w := w.WriteHeader StatusUnauthorized
  let w := w.headerSet "Content-Type" "application/problem+json"
  let detail : ProblemDetail :=
    { Status := StatusUnauthorized
      Type_ := "https://datatracker.ietf.org/doc/html/rfc7235#section-3.1"
      Title := message }
  Encode w detail.toGoValue

def ForbiddenError.WriteProblem (message : String)
    (w : ResponseWriter) : ResponseWriter × Option GoError :=
  let w := w.WriteHeader StatusForbidden
  let w := w.headerSet "Content-Type" "application/problem+json"
  let detail : ProblemDetail :=
    { Status := StatusForbidden
      Type_ := "https://datatracker.ietf.org/doc/html/rfc7231#section-6.5.3"
      Title := message }
  Encode w detail.toGoValue

def NotFoundError.WriteProblem (message : String)
    (w : ResponseWriter) : ResponseWriter × Option GoError :=
  let w := w.WriteHeader StatusNotFound
  let w := w.headerSet "Content-Type" "application/problem+json"
  let detail : ProblemDetail :=
    { Status := StatusNotFound
      Type_ := "https://datatracker.ietf.org/doc/html/rfc7231#section-6.5.4"
      Title := message }
  Encode w detail.toGoValue

def UnsupportedMediaType.WriteProblem
    (w : ResponseWriter) : ResponseWriter × Option GoError :=
  let w := w.WriteHeader StatusUnsupportedMediaType
  let w := w.headerSet "Content-Type" "application/problem+json"
  let detail : ProblemDetail :=
    { Status := StatusForbidden
      Type_ := "https://datatracker.ietf.org/doc/html/rfc7231#section-6.5.13"
      Title := "unsupported media type" }
  Encode w detail.toGoValue

def InternalServerError.WriteProblem (_innerError : GoError)
    (w : ResponseWriter) : ResponseWriter × Option GoError :=
  let w := w.WriteHeader StatusInternalServerError
  let w := w.headerSet "Content-Type" "application/problem+json"
  let detail : ProblemDetail :=
    { Status := StatusInternalServerError
      Type_ := "https://datatracker.ietf.org/doc/html/rfc7231#section-6.6.1"
      Title := "Internal Server Error" }
  Encode w detail.toGoValue

def ServiceUnavailableError.WriteProblem (_innerError : GoError)
    (w : ResponseWriter) : ResponseWriter × Option GoError :=
  let w := w.WriteHeader StatusServiceUnavailable
  let w := w.headerSet "Content-Type" "application/problem+json"
  let detail : ProblemDetail :=
    { Status := StatusServiceUnavailable
      Type_ := "https://datatracker.ietf.org/doc/html/rfc7231#section-6.6.4"
      Title := "The server is unavailable" }
  Encode w detail.toGoValue

/-- The type assertion `err.(HttpProblemWriter)`: the method `WriteProblem` of the dynamic type
of `err` when it has one, `none` when the assertion fails. The assertion looks at the error
itself only, so an error that wraps a problem error is not a problem writer. -/
def GoError.asHttpProblemWriter :
    GoError → Option (ResponseWriter → ResponseWriter × Option GoError)
  | .errorString _ => none
  | .ErrServerClosed => none
  | .wrapError _ _ => none
  | .BadRequestError invalidParams => some (BadRequestError.WriteProblem invalidParams)
  | .UnauthorizedError message => some (UnauthorizedError.WriteProblem message)
  | .ForbiddenError message => some (ForbiddenError.WriteProblem message)
  | .NotFoundError message => some (NotFoundError.WriteProblem message)
  | .UnsupportedMediaType => some UnsupportedMediaType.WriteProblem
  | .InternalServerError innerError => some (InternalServerError.WriteProblem innerError)
  | .ServiceUnavailableError innerError => some (ServiceUnavailableError.WriteProblem innerError)
  | .custom _ writeProblem =>
    some (fun w => ((writeProblem w).1, (writeProblem w).2.map GoError.errorString))

/-! ## `handler.go`: the handler adapter -/

/-- The parts of `*http.Request` the package reads. -/
structure Request where
  Method : String
  URL : String
  Host : String
  Proto : String
  UserAgent : String
  deriving DecidableEq, Repr

/-- A business function `func(w http.ResponseWriter, r *http.Request) (any, error)`: it may use
the sink, and returns the sink as it left it, the response model (`none` is the nil interface)
and the error (`none` is nil). -/
abbrev HttpHandler := ResponseWriter → Request → ResponseWriter × Option GoValue × Option GoError

/-- The sink after `ServeHTTP` and the errors handed to the hook `HandlerLogErr`, in order. -/
def HttpHandler.ServeHTTP (f : HttpHandler) (w : ResponseWriter) (r : Request) :
    ResponseWriter × List GoError :=
  match f w r with
  | (w, _, some err) =>
    match err.asHttpProblemWriter with
    | some writeProblem =>
      match writeProblem w with
      | (w, some err) => (w, [Errorf "could not write response" err])
      | (w, none) => (w, [])
    | none =>
      -- internalServerError := NewInternalServerError(err): the receiver below has innerError = err
      match InternalServerError.WriteProblem err w with
      | (w, some err) => (w, [Errorf "could not write response" err])
      | (w, none) => (w, [])
  | (w, none, none) => (w.WriteHeader StatusNoContent, [])
  | (w, some responseModel, none) =>
    let w := w.headerSet "Content-Type" "application/json"
    match Encode w responseModel with
    | (w, some err) =>
      (w.WriteHeader StatusInternalServerError, [Errorf "could not encode response body" err])
    | (w, none) => (w, [])

/-! ## `middleware/logging.go`: the logging decorator -/

/-- The level of a `slog` record. -/
inductive Level where
  | Info
  | Warn
  | Error
  deriving DecidableEq, Repr

/-- The value a fault carries, as `recover()` returns it (never nil): a failed type assertion to
the named interface, or any other value given to `panic`. -/
inductive PanicValue where
  | interfaceConversion (missing : String)
  | value (v : String)
  deriving DecidableEq, Repr

/-- One record handed to `slog`: level, message, the `request` group, `response.status_code`
and `panic.message` when present. -/
structure LogRecord where
  level : Level
  msg : String
  request : Request
  status_code : Int
  panic : Option PanicValue
  deriving DecidableEq, Repr

/-- One call a handler makes on the sink it is given. -/
inductive SinkCall where
  | WriteHeader (statusCode : Int)
  | Write (p : String)
  | HeaderSet (key value : String)
  | Flush
  | Hijack
  deriving DecidableEq, Repr

/-- How a call of `ServeHTTP` ends: it returns, or a fault leaves it. -/
inductive Ending where
  | returns
  | panics (v : PanicValue)
  deriving DecidableEq, Repr

/-- One run of an inner `http.Handler`, as the decorator can observe it: the calls it makes on
the sink, in order, and how it ends. -/
structure Handler where
  calls : List SinkCall
  ending : Ending
  deriving DecidableEq, Repr

/-- The wrapped sink. `ResponseWriter` is the embedded underlying sink (the embedded `Flusher`
and `Hijacker` are that same sink). `assignments` is not a field of the Go struct: it counts
the executions of `m.statusCode = statusCode`. -/
structure metricsHttpWriter where
  ResponseWriter : ResponseWriter
  statusCode : Int
  assignments : Nat
  deriving DecidableEq, Repr

def metricsHttpWriter.WriteHeader (m : metricsHttpWriter) (statusCode : Int) :
    metricsHttpWriter :=
  { m with
    statusCode := statusCode
    assignments := m.assignments + 1
    ResponseWriter := m.ResponseWriter.WriteHeader statusCode }

/-- One call on the wrapped sink: only `WriteHeader` is defined on the wrapper, every other
method is promoted from the embedded sink. -/
def metricsHttpWriter.call (m : metricsHttpWriter) : SinkCall → metricsHttpWriter
  | .WriteHeader statusCode => m.WriteHeader statusCode
  | .Write p => { m with ResponseWriter := (m.ResponseWriter.Write p).1 }
  | .HeaderSet key value => { m with ResponseWriter := m.ResponseWriter.headerSet key value }
  | .Flush => { m with ResponseWriter := m.ResponseWriter.Flush }
  | .Hijack => { m with ResponseWriter := m.ResponseWriter.Hijack }

/-- The wrapped sink after the calls of a handler run. -/
def metricsHttpWriter.serve (m : metricsHttpWriter) (calls : List SinkCall) : metricsHttpWriter :=
  calls.foldl metricsHttpWriter.call m

/-- Where the body of the decorated handler function stands when it stops. -/
structure Frame where
  w : ResponseWriter
  logs : List LogRecord
  nextCalls : Nat
  mw : Option metricsHttpWriter
  deriving DecidableEq, Repr

/-- What one request through the decorator leaves behind: the underlying sink, the records
emitted, how often `next.ServeHTTP` was entered, the wrapped sink if it was built, and the fault
that leaves the function (`none`: it returns normally). -/
structure Served where
  w : ResponseWriter
  logs : List LogRecord
  nextCalls : Nat
  mw : Option metricsHttpWriter
  panicked : Option PanicValue
  deriving DecidableEq, Repr

/-- The function body after the `defer` statement, up to its end or to the fault that stops
it. -/
def LoggingHandler.body (next : Handler) (w : ResponseWriter) (r : Request) :
    Frame × Option PanicValue :=
  if !w.isFlusher then
    ({ w := w, logs := [], nextCalls := 0, mw := none }, some (.interfaceConversion "http.Flusher"))
  else if !w.isHijacker then
    ({ w := w, logs := [], nextCalls := 0, mw := none },
      some (.interfaceConversion "http.Hijacker"))
  else
    let mw : metricsHttpWriter := { ResponseWriter := w, statusCode := StatusOK, assignments := 0 }
    let mw := mw.serve next.calls
    match next.ending with
    | .panics v => ({ w := mw.ResponseWriter, logs := [], nextCalls := 1, mw := some mw }, some v)
    | .returns =>
      let line : LogRecord :=
        if mw.statusCode ≥ 500 then
          { level := .Error, msg := "request resulted with server error", request := r,
            status_code := mw.statusCode, panic := none }
        else if mw.statusCode ≥ 400 then
          { level := .Warn, msg := "request resulted with client error", request := r,
            status_code := mw.statusCode, panic := none }
        else
          { level := .Info, msg := "request finished successfully", request := r,
            status_code := mw.statusCode, panic := none }
      ({ w := mw.ResponseWriter, logs := [line], nextCalls := 1, mw := some mw }, none)

/-- The decorated handler serving one request: the body, then the deferred function, whose
`recover()` takes up the fault if there is one. -/
def LoggingHandler (next : Handler) (w : ResponseWriter) (r : Request) : Served :=
  match LoggingHandler.body next w r with
  | (fr, some err) =>
    { w := fr.w.WriteHeader StatusInternalServerError
      logs := fr.logs ++
        [{ level := .Error, msg := "server recovered from panic", request := r,
           status_code := StatusInternalServerError, panic := some err }]
      nextCalls := fr.nextCalls
      mw := fr.mw
      panicked := none }
  | (fr, none) =>
    { w := fr.w, logs := fr.logs, nextCalls := fr.nextCalls, mw := fr.mw, panicked := none }

/-! ## `graceful_shotdown.go`: serving until a signal or a failure -/

/-- What can wake the `select` of `ServeWithShutdown`, in the order it happens: a SIGINT or
SIGTERM is delivered (the context of `signal.NotifyContext` is done), or `s.ListenAndServe()`
returns in its goroutine. -/
inductive Event where
  | signal
  | listenAndServeReturns (err : Option GoError)

/-- The result of `ServeWithShutdown` for a sequence of events, where `shutdown` is what
`s.Shutdown` returns under its five-second context (an error also when the deadline passes):
`none` while the `select` still blocks, `some none` for a nil return. The goroutine sends to
`errChan` only an error that is not `http.ErrServerClosed`. -/
def ServeWithShutdown (shutdown : Option GoError) : List Event → Option (Option GoError)
  | [] => none
  | .signal :: _ =>
    match shutdown with
    | some err => some (some (Errorf "server shutdown failed" err))
    | none => some none
  | .listenAndServeReturns (some err) :: rest =>
    if !err.isErrServerClosed then some (some (Errorf "server listen and serve failed" err))
    else ServeWithShutdown shutdown rest
  | .listenAndServeReturns none :: rest => ServeWithShutdown shutdown rest

/-! ## Notions used to state the properties -/

/-- The status codes of the `WriteHeader` calls among `calls`, in the order of the calls. -/
def writeHeaderCodes : List SinkCall → List Int
  | [] => []
  | .WriteHeader statusCode :: calls => statusCode :: writeHeaderCodes calls
  | _ :: calls => writeHeaderCodes calls

/-- An event that leaves the `select` of `ServeWithShutdown` blocked: `ListenAndServe`
returning nil or `http.ErrServerClosed`, which the goroutine does not report. -/
def Event.quiet : Event → Bool
  | .signal => false
  | .listenAndServeReturns none => true
  | .listenAndServeReturns (some err) => err.isErrServerClosed

/-! ## Facts about the sink -/

theorem WriteHeader_commits (w : ResponseWriter) (statusCode : Int)
    (hs : w.status = none) (hh : w.hijacked = false)
    (hlo : 200 ≤ statusCode) (hhi : statusCode ≤ 999) :
    w.WriteHeader statusCode = { w with status := some statusCode, sentHeader := w.header } := by
  have h1 : ¬ (statusCode < 100 ∨ statusCode > 999) := by omega
  have h2 : ¬ (100 ≤ statusCode ∧ statusCode ≤ 199 ∧ statusCode ≠ StatusSwitchingProtocols) := by
    omega
  simp [ResponseWriter.WriteHeader, hs, hh, h1, h2]

theorem WriteHeader_of_committed (w : ResponseWriter) (statusCode c : Int)
    (hs : w.status = some c) : w.WriteHeader statusCode = w := by
  simp [ResponseWriter.WriteHeader, hs]

theorem WriteHeader_of_hijacked (w : ResponseWriter) (statusCode : Int)
    (hh : w.hijacked = true) : w.WriteHeader statusCode = w := by
  simp [ResponseWriter.WriteHeader, hh]

theorem Write_of_committed (w : ResponseWriter) (p : String) (c : Int)
    (hs : w.status = some c) :
    (w.Write p).1.status = some c ∧ (w.Write p).1.sentHeader = w.sentHeader := by
  unfold ResponseWriter.Write
  simp only [hs, Option.isSome_some, if_true]
  split
  · exact ⟨hs, rfl⟩
  · split
    · exact ⟨hs, rfl⟩
    · split
      · exact ⟨hs, rfl⟩
      · split
        · exact ⟨hs, rfl⟩
        · exact ⟨rfl, rfl⟩

theorem Encode_of_committed (w : ResponseWriter) (v : GoValue) (c : Int)
    (hs : w.status = some c) :
    (Encode w v).1.status = some c ∧ (Encode w v).1.sentHeader = w.sentHeader := by
  unfold Encode
  split
  · exact ⟨hs, rfl⟩
  · exact Write_of_committed w _ c hs

/-- After `WriteHeader(code)`, `Header().Set` and `Encode` on a sink without a status, the
response status is `code` and the headers sent are the ones the sink held before the call. -/
theorem problem_sequence (w : ResponseWriter) (code : Int) (key value : String) (v : GoValue)
    (hs : w.status = none) (hh : w.hijacked = false)
    (hlo : 200 ≤ code) (hhi : code ≤ 999) :
    (Encode ((w.WriteHeader code).headerSet key value) v).1.status = some code ∧
    (Encode ((w.WriteHeader code).headerSet key value) v).1.sentHeader = w.header := by
  have h := Encode_of_committed ((w.WriteHeader code).headerSet key value) v code
    (by rw [WriteHeader_commits w code hs hh hlo hhi]; rfl)
  refine ⟨h.1, ?_⟩
  rw [h.2, WriteHeader_commits w code hs hh hlo hhi]
  rfl

/-! ## The problem responses -/

/-- C1: on a sink on which no status has been written (and whose connection was not taken
over), which every fresh sink is, `WriteProblem` of each of the seven error types writes the
documented status code, whatever the constructor argument: 400, 401, 403, 404, 415, 500, 503. -/
theorem WriteProblem_status (w : ResponseWriter)
    (hs : w.status = none) (hh : w.hijacked = false) :
    (∀ invalidParams, (BadRequestError.WriteProblem invalidParams w).1.status = some 400) ∧
    (∀ message, (UnauthorizedError.WriteProblem message w).1.status = some 401) ∧
    (∀ message, (ForbiddenError.WriteProblem message w).1.status = some 403) ∧
    (∀ message, (NotFoundError.WriteProblem message w).1.status = some 404) ∧
    (UnsupportedMediaType.WriteProblem w).1.status = some 415 ∧
    (∀ err, (InternalServerError.WriteProblem err w).1.status = some 500) ∧
    (∀ err, (ServiceUnavailableError.WriteProblem err w).1.status = some 503) := by
  refine ⟨?_, ?_, ?_, ?_, ?_, ?_, ?_⟩
  · intro invalidParams
    exact (problem_sequence w StatusBadRequest _ _ _ hs hh (by decide) (by decide)).1
  · intro message
    exact (problem_sequence w StatusUnauthorized _ _ _ hs hh (by decide) (by decide)).1
  · intro message
    exact (problem_sequence w StatusForbidden _ _ _ hs hh (by decide) (by decide)).1
  · intro message
    exact (problem_sequence w StatusNotFound _ _ _ hs hh (by decide) (by decide)).1
  · exact (problem_sequence w StatusUnsupportedMediaType _ _ _ hs hh (by decide) (by decide)).1
  · intro err
    exact (problem_sequence w StatusInternalServerError _ _ _ hs hh (by decide) (by decide)).1
  · intro err
    exact (problem_sequence w StatusServiceUnavailable _ _ _ hs hh (by decide) (by decide)).1

/-- Witness of C1 on a fresh sink. -/
theorem WriteProblem_status_witness :
    (ResponseWriter.fresh true true none).status = none ∧
    (NotFoundError.WriteProblem "not found" (ResponseWriter.fresh true true none)).1.status
      = some 404 :=
  ⟨rfl, (WriteProblem_status (ResponseWriter.fresh true true none) rfl rfl).2.2.2.1 "not found"⟩

/-- C2: on a fresh sink each `WriteProblem` writes the status line first and sets
`Content-Type` on the header map afterwards, so the headers that go out with the response do
not carry `Content-Type: application/problem+json`; only the header map, which is no longer
sent, holds it. Evaluated for all seven error types. -/
theorem WriteProblem_contentType_not_sent :
    (BadRequestError.WriteProblem (some [{ Name := "param1", Reason := "error1" }])
      (ResponseWriter.fresh true true none)).1.sentHeader.Get "Content-Type" = none ∧
    (UnauthorizedError.WriteProblem "no token"
      (ResponseWriter.fresh true true none)).1.sentHeader.Get "Content-Type" = none ∧
    (ForbiddenError.WriteProblem "no access"
      (ResponseWriter.fresh true true none)).1.sentHeader.Get "Content-Type" = none ∧
    (NotFoundError.WriteProblem "not found"
      (ResponseWriter.fresh true true none)).1.sentHeader.Get "Content-Type" = none ∧
    (UnsupportedMediaType.WriteProblem
      (ResponseWriter.fresh true true none)).1.sentHeader.Get "Content-Type" = none ∧
    (InternalServerError.WriteProblem (.errorString "internal error")
      (ResponseWriter.fresh true true none)).1.sentHeader.Get "Content-Type" = none ∧
    (ServiceUnavailableError.WriteProblem (.errorString "service unavailable")
      (ResponseWriter.fresh true true none)).1.sentHeader.Get "Content-Type" = none ∧
    (NotFoundError.WriteProblem "not found" (ResponseWriter.fresh true true none)).1
      = { isFlusher := true, isHijacker := true,
          header := [("Content-Type", "application/problem+json")],
          status := some 404,
          sentHeader := [],
          body := "\x7b\"status\":404,\"type\":\"https://datatracker.ietf.org/doc/html/rfc7231#section-6.5.4\",\"title\":\"not found\"\x7d\n",
          hijacked := false, writeErr := none } := by
  refine ⟨?_, ?_, ?_, ?_, ?_, ?_, ?_, ?_⟩ <;> rfl

/-- C3: `UnsupportedMediaType.WriteProblem` on a fresh sink writes the status line 415 while
the `status` member of the problem document in the body is 403; the sibling
`ForbiddenError.WriteProblem` writes 403 in both places. -/
theorem UnsupportedMediaType_status_mismatch :
    (UnsupportedMediaType.WriteProblem (ResponseWriter.fresh true true none)).1.status
      = some 415 ∧
    (UnsupportedMediaType.WriteProblem (ResponseWriter.fresh true true none)).1.body
      = "\x7b\"status\":403,\"type\":\"https://datatracker.ietf.org/doc/html/rfc7231#section-6.5.13\",\"title\":\"unsupported media type\"\x7d\n" ∧
    (ForbiddenError.WriteProblem "no access" (ResponseWriter.fresh true true none)).1.status
      = some 403 ∧
    (ForbiddenError.WriteProblem "no access" (ResponseWriter.fresh true true none)).1.body
      = "\x7b\"status\":403,\"type\":\"https://datatracker.ietf.org/doc/html/rfc7231#section-6.5.3\",\"title\":\"no access\"\x7d\n" := by
  refine ⟨?_, ?_, ?_, ?_⟩ <;> rfl

/-- C6: the response of a server-fault problem does not depend on the cause. For any two causes
and any sink, `NewInternalServerError(c1).WriteProblem` and `NewInternalServerError(c2)
.WriteProblem` leave the same sink (status, headers, body) and return the same error, and so do
the two `NewServiceUnavailableError` values; the cause shows only in `Error()`. -/
theorem WriteProblem_independent_of_cause (c1 c2 : GoError) (w : ResponseWriter) :
    ((NewInternalServerError c1).asHttpProblemWriter.map (fun writeProblem => writeProblem w)
      = (NewInternalServerError c2).asHttpProblemWriter.map (fun writeProblem => writeProblem w)) ∧
    ((NewServiceUnavailableError c1).asHttpProblemWriter.map (fun writeProblem => writeProblem w)
      = (NewServiceUnavailableError c2).asHttpProblemWriter.map
          (fun writeProblem => writeProblem w)) ∧
    (NewInternalServerError c1).asHttpProblemWriter.isSome = true ∧
    (NewServiceUnavailableError c1).asHttpProblemWriter.isSome = true ∧
    (NewInternalServerError c1).Error = c1.Error ∧
    (NewServiceUnavailableError c1).Error = c1.Error := by
  refine ⟨rfl, rfl, rfl, rfl, rfl, rfl⟩

/-! ## The handler adapter -/

/-- The table of `TestHttpHandler_ServeHTTP`: the status each case of the test expects, on the
sink of the test. -/
theorem TestHttpHandler_ServeHTTP :
    [ (HttpHandler.ServeHTTP (fun w _ => (w, some (GoValue.str "ok"), none))
        (ResponseWriter.fresh true false none)
        { Method := "GET", URL := "/", Host := "", Proto := "HTTP/1.1", UserAgent := "" }).1.status,
      (HttpHandler.ServeHTTP (fun w _ => (w, none, none))
        (ResponseWriter.fresh true false none)
        { Method := "GET", URL := "/", Host := "", Proto := "HTTP/1.1", UserAgent := "" }).1.status,
      (HttpHandler.ServeHTTP
        (fun w _ => (w, none,
          some (NewServiceUnavailableError (GoError.errorString "service unavailable"))))
        (ResponseWriter.fresh true false none)
        { Method := "GET", URL := "/", Host := "", Proto := "HTTP/1.1", UserAgent := "" }).1.status,
      (HttpHandler.ServeHTTP
        (fun w _ => (w, none,
          some (NewBadRequestError (some [{ Name := "param1", Reason := "error1" }]))))
        (ResponseWriter.fresh true false none)
        { Method := "GET", URL := "/", Host := "", Proto := "HTTP/1.1", UserAgent := "" }).1.status,
      (HttpHandler.ServeHTTP
        (fun w _ => (w, none,
          some (NewInternalServerError (GoError.errorString "internal error"))))
        (ResponseWriter.fresh true false none)
        { Method := "GET", URL := "/", Host := "", Proto := "HTTP/1.1", UserAgent := "" }).1.status,
      (HttpHandler.ServeHTTP (fun w _ => (w, none, some (NewNotFoundError "not found")))
        (ResponseWriter.fresh true false none)
        { Method := "GET", URL := "/", Host := "", Proto := "HTTP/1.1", UserAgent := "" }).1.status,
      (HttpHandler.ServeHTTP (fun w _ => (w, none, some (GoError.errorString "generic error")))
        (ResponseWriter.fresh true false none)
        { Method := "GET", URL := "/", Host := "", Proto := "HTTP/1.1", UserAgent := "" }).1.status ]
      = [some 200, some 204, some 503, some 400, some 500, some 404, some 500] := by
  rfl

/-- C4: when the business function returns a non-nil error `e`, with any response model and
leaving the sink as `w1`, the sink after `ServeHTTP` is exactly the sink `e.WriteProblem` leaves
from `w1` if `e` is a problem writer, and otherwise exactly the sink
`NewInternalServerError(e).WriteProblem` leaves from `w1`; in that second case a sink without a
status gets status 500, and the body gains the problem document titled
"Internal Server Error" when the connection takes the write. The response model plays no
part. -/
theorem ServeHTTP_error (f : HttpHandler) (w w1 : ResponseWriter) (r : Request)
    (responseModel : Option GoValue) (e : GoError)
    (hf : f w r = (w1, responseModel, some e)) :
    (∀ writeProblem, e.asHttpProblemWriter = some writeProblem →
      (f.ServeHTTP w r).1 = (writeProblem w1).1) ∧
    (e.asHttpProblemWriter = none →
      (∃ writeProblem, (NewInternalServerError e).asHttpProblemWriter = some writeProblem ∧
        (f.ServeHTTP w r).1 = (writeProblem w1).1) ∧
      (w1.status = none → w1.hijacked = false →
        (f.ServeHTTP w r).1.status = some 500 ∧
        (w1.writeErr = none →
          (f.ServeHTTP w r).1.body = w1.body ++
            "\x7b\"status\":500,\"type\":\"https://datatracker.ietf.org/doc/html/rfc7231#section-6.6.1\",\"title\":\"Internal Server Error\"\x7d\n"))) := by
  constructor
  · intro writeProblem hwp
    unfold HttpHandler.ServeHTTP
    rw [hf]
    simp only [hwp]
    split <;> simp_all
  · intro hnone
    have hserve : (f.ServeHTTP w r).1 = (InternalServerError.WriteProblem e w1).1 := by
      unfold HttpHandler.ServeHTTP
      rw [hf]
      simp only [hnone]
      split <;> simp_all
    refine ⟨⟨InternalServerError.WriteProblem e, rfl, hserve⟩, ?_⟩
    intro hs hh
    rw [hserve]
    refine ⟨(problem_sequence w1 StatusInternalServerError _ _ _ hs hh
      (by decide) (by decide)).1, ?_⟩
    intro hwe
    have hcommit := WriteHeader_commits w1 StatusInternalServerError hs hh (by decide) (by decide)
    unfold InternalServerError.WriteProblem
    simp only [hcommit]
    have hm : marshal (ProblemDetail.toGoValue
        { Status := StatusInternalServerError
          Type_ := "https://datatracker.ietf.org/doc/html/rfc7231#section-6.6.1"
          Title := "Internal Server Error" })
        = .ok "\x7b\"status\":500,\"type\":\"https://datatracker.ietf.org/doc/html/rfc7231#section-6.6.1\",\"title\":\"Internal Server Error\"\x7d" := rfl
    unfold Encode
    rw [hm]
    simp [ResponseWriter.Write, ResponseWriter.headerSet, hh, hwe,
      ResponseWriter.bodyAllowedForStatus, StatusInternalServerError, StatusOK,
      StatusNoContent, StatusNotModified]

/-- Witness of C4: the generic error of the tests, on a fresh sink. -/
theorem ServeHTTP_error_witness :
    (HttpHandler.ServeHTTP (fun w _ => (w, none, some (GoError.errorString "generic error")))
      (ResponseWriter.fresh true true none)
      { Method := "GET", URL := "/", Host := "", Proto := "HTTP/1.1", UserAgent := "" }).1.status
      = some 500 :=
  (((ServeHTTP_error (fun w _ => (w, none, some (GoError.errorString "generic error")))
      (ResponseWriter.fresh true true none) (ResponseWriter.fresh true true none)
      { Method := "GET", URL := "/", Host := "", Proto := "HTTP/1.1", UserAgent := "" }
      none (GoError.errorString "generic error") rfl).2 rfl).2 rfl rfl).1

/-- C5, as stated, fails. The business function is handed the sink: one that calls
`w.WriteHeader(201)` and returns the result "ok" with a nil error gives a response with status
201, not 200, sent without `Content-Type: application/json`; one that writes "hi" and returns
a nil result gives status 200 with the body "hi", not 204 with an empty body. And for a HEAD
request the result "ok" gives status 200 with no body sent. -/
theorem ServeHTTP_success_touched_sink :
    ((HttpHandler.ServeHTTP (fun w _ => (w.WriteHeader 201, some (GoValue.str "ok"), none))
      (ResponseWriter.fresh true true none)
      { Method := "GET", URL := "/", Host := "", Proto := "HTTP/1.1", UserAgent := "" }).1.status
      = some 201 ∧
    ¬ ((HttpHandler.ServeHTTP (fun w _ => (w.WriteHeader 201, some (GoValue.str "ok"), none))
      (ResponseWriter.fresh true true none)
      { Method := "GET", URL := "/", Host := "", Proto := "HTTP/1.1", UserAgent := "" }).1.status
      = some 200) ∧
    ¬ ((HttpHandler.ServeHTTP (fun w _ => (w.WriteHeader 201, some (GoValue.str "ok"), none))
      (ResponseWriter.fresh true true none)
      { Method := "GET", URL := "/", Host := "", Proto := "HTTP/1.1", UserAgent := "" }
      ).1.sentHeader.Get "Content-Type" = some "application/json")) ∧
    ((HttpHandler.ServeHTTP (fun w _ => ((w.Write "hi").1, none, none))
      (ResponseWriter.fresh true true none)
      { Method := "GET", URL := "/", Host := "", Proto := "HTTP/1.1", UserAgent := "" }).1.status
      = some 200 ∧
    (HttpHandler.ServeHTTP (fun w _ => ((w.Write "hi").1, none, none))
      (ResponseWriter.fresh true true none)
      { Method := "GET", URL := "/", Host := "", Proto := "HTTP/1.1", UserAgent := "" }).1.sentBody
      = "hi") ∧
    ((HttpHandler.ServeHTTP (fun w _ => (w, some (GoValue.str "ok"), none))
      { ResponseWriter.fresh true true none with isHead := true }
      { Method := "HEAD", URL := "/", Host := "", Proto := "HTTP/1.1", UserAgent := "" }).1.status
      = some 200 ∧
    (HttpHandler.ServeHTTP (fun w _ => (w, some (GoValue.str "ok"), none))
      { ResponseWriter.fresh true true none with isHead := true }
      { Method := "HEAD", URL := "/", Host := "", Proto := "HTTP/1.1", UserAgent := "" }).1.sentBody
      = "") := by
  refine ⟨⟨?_, ?_, ?_⟩, ⟨?_, ?_⟩, ⟨?_, ?_⟩⟩
  · rfl
  · decide
  · decide
  · rfl
  · rfl
  · rfl
  · rfl

/-- C5, amended: let the business function return a nil error and leave the sink untouched (no
status written, connection not taken over, no header set, no body written). With a nil
response model the response has status 204, an empty body and no `Content-Type` header. With
any other response model whose encoding succeeds (`Encode` returns nil) the response has status
200, is sent with `Content-Type: application/json`, and the body the sink accepts is the JSON
text of the model as the encoder writes it, that is followed by a newline; this is the body
sent, except for a HEAD request, where no body is sent. -/
theorem ServeHTTP_success (f : HttpHandler) (w w1 : ResponseWriter) (r : Request)
    (hs : w1.status = none) (hh : w1.hijacked = false) (hb : w1.body = "")
    (hhd : w1.header = []) :
    (f w r = (w1, none, none) →
      (f.ServeHTTP w r).1.status = some 204 ∧
      (f.ServeHTTP w r).1.body = "" ∧
      (f.ServeHTTP w r).1.sentBody = "" ∧
      (f.ServeHTTP w r).1.sentHeader.Get "Content-Type" = none ∧
      (f.ServeHTTP w r).1.header.Get "Content-Type" = none) ∧
    (∀ responseModel, f w r = (w1, some responseModel, none) →
      (Encode (w1.headerSet "Content-Type" "application/json") responseModel).2 = none →
      (f.ServeHTTP w r).1.status = some 200 ∧
      (f.ServeHTTP w r).1.sentHeader.Get "Content-Type" = some "application/json" ∧
      ∃ text, marshal responseModel = .ok text ∧ (f.ServeHTTP w r).1.body = text ++ "\n" ∧
        (w1.isHead = false → (f.ServeHTTP w r).1.sentBody = text ++ "\n") ∧
        (w1.isHead = true → (f.ServeHTTP w r).1.sentBody = "")) := by
  constructor
  · intro hf
    have hserve : (f.ServeHTTP w r).1 = w1.WriteHeader StatusNoContent := by
      unfold HttpHandler.ServeHTTP
      rw [hf]
    rw [hserve, WriteHeader_commits w1 StatusNoContent hs hh (by decide) (by decide)]
    simp [hb, hhd, Header.Get, StatusNoContent, ResponseWriter.sentBody]
  · intro responseModel hf henc
    have hserve : (f.ServeHTTP w r).1
        = (Encode (w1.headerSet "Content-Type" "application/json") responseModel).1 := by
      unfold HttpHandler.ServeHTTP
      rw [hf]
      simp only
      split
      · rename_i heq
        rw [heq] at henc
        simp at henc
      · rename_i heq
        rw [heq]
    rw [hserve]
    unfold Encode at henc ⊢
    cases hm : marshal responseModel with
    | error msg => simp [hm] at henc
    | ok text =>
      simp only [hm] at henc ⊢
      have hne : text ++ "\n" ≠ "" := by
        intro h
        have hlen := congrArg String.length h
        rw [String.length_append] at hlen
        have h1 : "\n".length = 1 := rfl
        have h0 : "".length = 0 := rfl
        omega
      cases hhead : w1.isHead with
      | true =>
        simp [ResponseWriter.Write, ResponseWriter.headerSet, ResponseWriter.WriteHeader, hs, hh,
          hne, hb, hhd, hhead, ResponseWriter.bodyAllowedForStatus, StatusOK, StatusNoContent,
          StatusNotModified, StatusSwitchingProtocols, Header.Get, Header.Set,
          ResponseWriter.sentBody]
      | false =>
        cases hwe : w1.writeErr with
        | some e =>
          simp [ResponseWriter.Write, ResponseWriter.headerSet, ResponseWriter.WriteHeader, hs,
            hh, hwe, hne, hhead, ResponseWriter.bodyAllowedForStatus, StatusOK, StatusNoContent,
            StatusNotModified, StatusSwitchingProtocols] at henc
        | none =>
          simp [ResponseWriter.Write, ResponseWriter.headerSet, ResponseWriter.WriteHeader, hs,
            hh, hwe, hne, hb, hhd, hhead, ResponseWriter.bodyAllowedForStatus, StatusOK,
            StatusNoContent, StatusNotModified, StatusSwitchingProtocols, Header.Get, Header.Set,
            ResponseWriter.sentBody]

/-- Witness of C5 (amended): the result "ok" of the tests on a fresh sink gives status 200,
`Content-Type: application/json` and the body `"ok"` with the newline of the encoder; the nil
result gives status 204. -/
theorem ServeHTTP_success_witness :
    (HttpHandler.ServeHTTP (fun w _ => (w, some (GoValue.str "ok"), none))
      (ResponseWriter.fresh true true none)
      { Method := "GET", URL := "/", Host := "", Proto := "HTTP/1.1", UserAgent := "" }).1.status
      = some 200 ∧
    (HttpHandler.ServeHTTP (fun w _ => (w, some (GoValue.str "ok"), none))
      (ResponseWriter.fresh true true none)
      { Method := "GET", URL := "/", Host := "", Proto := "HTTP/1.1", UserAgent := "" }).1.sentBody
      = "\"ok\"\n" ∧
    (HttpHandler.ServeHTTP (fun w _ => (w, none, none))
      (ResponseWriter.fresh true true none)
      { Method := "GET", URL := "/", Host := "", Proto := "HTTP/1.1", UserAgent := "" }).1.status
      = some 204 :=
  ⟨((ServeHTTP_success (fun w _ => (w, some (GoValue.str "ok"), none))
      (ResponseWriter.fresh true true none) (ResponseWriter.fresh true true none)
      { Method := "GET", URL := "/", Host := "", Proto := "HTTP/1.1", UserAgent := "" }
      rfl rfl rfl rfl).2 (GoValue.str "ok") rfl rfl).1,
   rfl,
   ((ServeHTTP_success (fun w _ => (w, none, none))
      (ResponseWriter.fresh true true none) (ResponseWriter.fresh true true none)
      { Method := "GET", URL := "/", Host := "", Proto := "HTTP/1.1", UserAgent := "" }
      rfl rfl rfl rfl).1 rfl).1⟩

/-! ## The logging decorator -/

theorem serve_cons (m : metricsHttpWriter) (c : SinkCall) (calls : List SinkCall) :
    m.serve (c :: calls) = (m.call c).serve calls := rfl

theorem getLast?_getD_cons (a d : Int) (l : List Int) :
    (a :: l).getLast?.getD d = l.getLast?.getD a := by
  cases l with
  | nil => rfl
  | cons b t => simp [List.getLast?_cons_cons, List.getLast?_eq_getLast]

/-- After the calls of a handler run the wrapper holds the code of the last `WriteHeader` call
(its initial value if there was none), and was assigned once per such call. -/
theorem serve_statusCode (calls : List SinkCall) (m : metricsHttpWriter) :
    (m.serve calls).statusCode = (writeHeaderCodes calls).getLast?.getD m.statusCode ∧
    (m.serve calls).assignments = m.assignments + (writeHeaderCodes calls).length := by
  induction calls generalizing m with
  | nil => exact ⟨rfl, rfl⟩
  | cons c calls ih =>
    rw [serve_cons]
    cases c with
    | WriteHeader statusCode =>
      have h := ih (m.call (.WriteHeader statusCode))
      refine ⟨?_, ?_⟩
      · rw [h.1, writeHeaderCodes, getLast?_getD_cons]
        rfl
      · rw [h.2, writeHeaderCodes, List.length_cons]
        show m.assignments + 1 + _ = _
        omega
    | Write p => exact ih _
    | HeaderSet key value => exact ih _
    | Flush => exact ih _
    | Hijack => exact ih _

/-- C7, as stated, fails: a handler that writes status 200 and then faults, on a fresh sink with
both capabilities, leaves a response whose status is 200, not 500. -/
theorem LoggingHandler_panic_after_status :
    (LoggingHandler { calls := [.WriteHeader 200], ending := .panics (.value "boom") }
      (ResponseWriter.fresh true true none)
      { Method := "GET", URL := "/", Host := "", Proto := "HTTP/1.1", UserAgent := "" }).w.status
      = some 200 ∧
    ¬ ((LoggingHandler { calls := [.WriteHeader 200], ending := .panics (.value "boom") }
      (ResponseWriter.fresh true true none)
      { Method := "GET", URL := "/", Host := "", Proto := "HTTP/1.1", UserAgent := "" }).w.status
      = some 500) := by
  constructor
  · rfl
  · decide

/-- C7, amended: for every handler run that ends in a fault (after any calls on the sink), the
decorator returns normally, emits exactly one record, the error-level "server recovered from
panic" with status code 500 and the value of the fault, and calls `WriteHeader(500)` on the
underlying sink as the handler left it. The response status is then 500 if no status had been
written and the connection had not been taken over; it stays the status already written
otherwise, and a connection that was taken over is left as it is. -/
theorem LoggingHandler_panic (calls : List SinkCall) (v : PanicValue) (w : ResponseWriter)
    (r : Request) :
    (LoggingHandler { calls := calls, ending := .panics v } w r).panicked = none ∧
    (∃ fault, (LoggingHandler { calls := calls, ending := .panics v } w r).logs
      = [{ level := .Error, msg := "server recovered from panic", request := r,
           status_code := 500, panic := some fault }] ∧
      (w.isFlusher = true → w.isHijacker = true → fault = v)) ∧
    (LoggingHandler { calls := calls, ending := .panics v } w r).logs.length = 1 ∧
    (LoggingHandler { calls := calls, ending := .panics v } w r).w
      = (LoggingHandler.body { calls := calls, ending := .panics v } w r).1.w.WriteHeader 500 ∧
    ((LoggingHandler.body { calls := calls, ending := .panics v } w r).1.w.status = none →
      (LoggingHandler.body { calls := calls, ending := .panics v } w r).1.w.hijacked = false →
      (LoggingHandler { calls := calls, ending := .panics v } w r).w.status = some 500) ∧
    (∀ c, (LoggingHandler.body { calls := calls, ending := .panics v } w r).1.w.status = some c →
      (LoggingHandler { calls := calls, ending := .panics v } w r).w.status = some c) ∧
    ((LoggingHandler.body { calls := calls, ending := .panics v } w r).1.w.hijacked = true →
      (LoggingHandler { calls := calls, ending := .panics v } w r).w
        = (LoggingHandler.body { calls := calls, ending := .panics v } w r).1.w) := by
  have hbody : ∃ fr fault, LoggingHandler.body { calls := calls, ending := .panics v } w r
      = (fr, some fault) ∧ fr.logs = [] ∧
      (w.isFlusher = true → w.isHijacker = true → fault = v) := by
    unfold LoggingHandler.body
    by_cases hf : w.isFlusher = true
    · by_cases hj : w.isHijacker = true
      · simp [hf, hj]
      · simp [hf, hj]
    · simp [hf]
  obtain ⟨fr, fault, hb, hlogs, hfault⟩ := hbody
  have hserved : LoggingHandler { calls := calls, ending := .panics v } w r
      = { w := fr.w.WriteHeader StatusInternalServerError
          logs := fr.logs ++
            [{ level := .Error, msg := "server recovered from panic", request := r,
               status_code := StatusInternalServerError, panic := some fault }]
          nextCalls := fr.nextCalls
          mw := fr.mw
          panicked := none } := by
    unfold LoggingHandler
    rw [hb]
  rw [hserved, hb, hlogs]
  refine ⟨rfl, ⟨fault, rfl, hfault⟩, rfl, rfl, ?_, ?_, ?_⟩
  · intro hs hh
    show (fr.w.WriteHeader StatusInternalServerError).status = some 500
    rw [WriteHeader_commits fr.w StatusInternalServerError hs hh (by decide) (by decide)]
    rfl
  · intro c hc
    show (fr.w.WriteHeader StatusInternalServerError).status = some c
    rw [WriteHeader_of_committed fr.w StatusInternalServerError c hc]
    exact hc
  · intro hh
    exact WriteHeader_of_hijacked fr.w StatusInternalServerError hh

/-- C8, as stated, fails: for the calls `WriteHeader(404)`, `WriteHeader(500)` of a handler that
returns, the recorded status code is 500 and not the code 404 of the first call that sets a
status (which is the status of the response), the record emitted carries 500, and the recorded
value was assigned twice. -/
theorem recorded_status_is_not_first :
    ((LoggingHandler { calls := [.WriteHeader 404, .WriteHeader 500], ending := .returns }
      (ResponseWriter.fresh true true none)
      { Method := "GET", URL := "/", Host := "", Proto := "HTTP/1.1", UserAgent := "" }).mw.map
        (fun mw => (mw.statusCode, mw.assignments))) = some (500, 2) ∧
    (writeHeaderCodes [.WriteHeader 404, .WriteHeader 500]).head? = some 404 ∧
    (LoggingHandler { calls := [.WriteHeader 404, .WriteHeader 500], ending := .returns }
      (ResponseWriter.fresh true true none)
      { Method := "GET", URL := "/", Host := "", Proto := "HTTP/1.1", UserAgent := "" }).w.status
      = some 404 ∧
    ((LoggingHandler { calls := [.WriteHeader 404, .WriteHeader 500], ending := .returns }
      (ResponseWriter.fresh true true none)
      { Method := "GET", URL := "/", Host := "", Proto := "HTTP/1.1", UserAgent := "" }).logs.map
        (fun line => (line.level, line.status_code))) = [(Level.Error, 500)] := by
  refine ⟨?_, ?_, ?_, ?_⟩ <;> rfl

/-- C8, amended: for every sequence of sink calls of a handler that returns normally, on a sink
with both capabilities, the status code recorded by the wrapper is the code of the last
`WriteHeader` call, and 200 if there is none; it is the code of the one record emitted and
decides its level (error from 500, warning from 400, info below); the recorded value is
assigned once per `WriteHeader` call. So with at most one `WriteHeader` call the recorded code
is that of the first such call and it is assigned at most once. -/
theorem LoggingHandler_recorded_status (calls : List SinkCall) (w : ResponseWriter)
    (r : Request) (hf : w.isFlusher = true) (hj : w.isHijacker = true) :
    ∃ mw line,
      (LoggingHandler { calls := calls, ending := .returns } w r).mw = some mw ∧
      mw.statusCode = (writeHeaderCodes calls).getLast?.getD 200 ∧
      mw.assignments = (writeHeaderCodes calls).length ∧
      (LoggingHandler { calls := calls, ending := .returns } w r).logs = [line] ∧
      line.status_code = mw.statusCode ∧
      line.level = (if mw.statusCode ≥ 500 then Level.Error
        else if mw.statusCode ≥ 400 then Level.Warn else Level.Info) ∧
      ((writeHeaderCodes calls).length ≤ 1 →
        mw.statusCode = (writeHeaderCodes calls).head?.getD 200 ∧ mw.assignments ≤ 1) := by
  have hst := serve_statusCode calls
    { ResponseWriter := w, statusCode := StatusOK, assignments := 0 }
  refine ⟨metricsHttpWriter.serve
    { ResponseWriter := w, statusCode := StatusOK, assignments := 0 } calls, ?_⟩
  have hbody : LoggingHandler { calls := calls, ending := .returns } w r
      = { w := (metricsHttpWriter.serve
            { ResponseWriter := w, statusCode := StatusOK, assignments := 0 } calls).ResponseWriter
          logs := (LoggingHandler.body { calls := calls, ending := .returns } w r).1.logs
          nextCalls := 1
          mw := some (metricsHttpWriter.serve
            { ResponseWriter := w, statusCode := StatusOK, assignments := 0 } calls)
          panicked := none } := by
    unfold LoggingHandler LoggingHandler.body
    simp [hf, hj]
  have hlogs : ∃ line, (LoggingHandler.body { calls := calls, ending := .returns } w r).1.logs
      = [line] ∧
      line.status_code = (metricsHttpWriter.serve
        { ResponseWriter := w, statusCode := StatusOK, assignments := 0 } calls).statusCode ∧
      line.level = (if (metricsHttpWriter.serve
          { ResponseWriter := w, statusCode := StatusOK, assignments := 0 } calls).statusCode
            ≥ 500 then Level.Error
        else if (metricsHttpWriter.serve
          { ResponseWriter := w, statusCode := StatusOK, assignments := 0 } calls).statusCode
            ≥ 400 then Level.Warn else Level.Info) := by
    unfold LoggingHandler.body
    simp only [hf, hj, Bool.not_true, Bool.false_eq_true, if_false]
    refine ⟨_, rfl, ?_, ?_⟩
    · split
      · rfl
      · split <;> rfl
    · split
      · rfl
      · split <;> rfl
  obtain ⟨line, hl, hcode, hlevel⟩ := hlogs
  refine ⟨line, ?_, hst.1, ?_, ?_, hcode, hlevel, ?_⟩
  · rw [hbody]
  · rw [hst.2]
    simp
  · rw [hbody, hl]
  · intro hle
    rw [hst.1, hst.2]
    refine ⟨?_, by simpa using hle⟩
    cases hc : writeHeaderCodes calls with
    | nil => rfl
    | cons a t =>
      cases t with
      | nil => rfl
      | cons b t2 =>
        rw [hc] at hle
        simp at hle

/-- Witness of C8: a handler that writes a body without setting a status, then returns. -/
theorem LoggingHandler_recorded_status_witness :
    ∃ mw line,
      (LoggingHandler { calls := [.Write "hello"], ending := .returns }
        (ResponseWriter.fresh true true none)
        { Method := "GET", URL := "/", Host := "", Proto := "HTTP/1.1", UserAgent := "" }).mw
        = some mw ∧
      mw.statusCode = (writeHeaderCodes [.Write "hello"]).getLast?.getD 200 ∧
      mw.assignments = (writeHeaderCodes [.Write "hello"]).length ∧
      (LoggingHandler { calls := [.Write "hello"], ending := .returns }
        (ResponseWriter.fresh true true none)
        { Method := "GET", URL := "/", Host := "", Proto := "HTTP/1.1", UserAgent := "" }).logs
        = [line] ∧
      line.status_code = mw.statusCode ∧
      line.level = (if mw.statusCode ≥ 500 then Level.Error
        else if mw.statusCode ≥ 400 then Level.Warn else Level.Info) ∧
      ((writeHeaderCodes [.Write "hello"]).length ≤ 1 →
        mw.statusCode = (writeHeaderCodes [.Write "hello"]).head?.getD 200 ∧
        mw.assignments ≤ 1) :=
  LoggingHandler_recorded_status [.Write "hello"] (ResponseWriter.fresh true true none)
    { Method := "GET", URL := "/", Host := "", Proto := "HTTP/1.1", UserAgent := "" } rfl rfl

/-- Witness of C7 (amended): a handler that faults before touching a fresh sink. -/
theorem LoggingHandler_panic_witness :
    (LoggingHandler { calls := [], ending := .panics (.value "boom") }
      (ResponseWriter.fresh true true none)
      { Method := "GET", URL := "/", Host := "", Proto := "HTTP/1.1", UserAgent := "" }).w.status
      = some 500 :=
  (LoggingHandler_panic [] (.value "boom") (ResponseWriter.fresh true true none)
    { Method := "GET", URL := "/", Host := "", Proto := "HTTP/1.1", UserAgent := "" }).2.2.2.2.1
    rfl rfl

/-- C10: on a sink that lacks the flush or the hijack capability the decorator never enters the
inner handler and never builds the wrapped sink: the type assertion faults, the deferred
function calls `WriteHeader(500)` on the underlying sink (so a sink without a status gets
status 500), and the one record emitted is the error-level "server recovered from panic" with
the failed assertion as its value. On every sink the inner handler is entered once if both
capabilities are there and not at all otherwise. -/
theorem LoggingHandler_capabilities (next : Handler) (w : ResponseWriter) (r : Request) :
    (¬ (w.isFlusher = true ∧ w.isHijacker = true) →
      (LoggingHandler next w r).nextCalls = 0 ∧
      (LoggingHandler next w r).mw = none ∧
      (LoggingHandler next w r).w = w.WriteHeader 500 ∧
      (w.status = none → w.hijacked = false → (LoggingHandler next w r).w.status = some 500) ∧
      (LoggingHandler next w r).panicked = none ∧
      ∃ missing, (LoggingHandler next w r).logs
        = [{ level := .Error, msg := "server recovered from panic", request := r,
             status_code := 500, panic := some (.interfaceConversion missing) }]) ∧
    ((LoggingHandler next w r).nextCalls = 1 ↔ (w.isFlusher = true ∧ w.isHijacker = true)) ∧
    ((LoggingHandler next w r).nextCalls = 0 ↔ ¬ (w.isFlusher = true ∧ w.isHijacker = true)) := by
  have hcommit : w.status = none → w.hijacked = false →
      (w.WriteHeader StatusInternalServerError).status = some 500 := by
    intro hs hh
    rw [WriteHeader_commits w StatusInternalServerError hs hh (by decide) (by decide)]
    rfl
  by_cases hf : w.isFlusher = true
  · by_cases hj : w.isHijacker = true
    · have hn : (LoggingHandler next w r).nextCalls = 1 := by
        unfold LoggingHandler LoggingHandler.body
        simp only [hf, hj, Bool.not_true, Bool.false_eq_true, if_false]
        cases next.ending <;> rfl
      refine ⟨fun h => absurd ⟨hf, hj⟩ h, ?_, ?_⟩
      · exact ⟨fun _ => ⟨hf, hj⟩, fun _ => hn⟩
      · rw [hn]
        exact ⟨fun h => absurd h (by decide), fun h => absurd ⟨hf, hj⟩ h⟩
    · have hserved : LoggingHandler next w r
          = { w := w.WriteHeader StatusInternalServerError
              logs := [{ level := .Error, msg := "server recovered from panic", request := r,
                         status_code := StatusInternalServerError,
                         panic := some (.interfaceConversion "http.Hijacker") }]
              nextCalls := 0, mw := none, panicked := none } := by
        unfold LoggingHandler LoggingHandler.body
        simp [hf, hj]
      rw [hserved]
      refine ⟨fun _ => ⟨rfl, rfl, rfl, hcommit, rfl, _, rfl⟩, ?_, ?_⟩
      · exact ⟨fun h => absurd (show (0 : Nat) = 1 from h) (by decide), fun h => absurd h.2 hj⟩
      · exact ⟨fun _ h => hj h.2, fun _ => rfl⟩
  · have hserved : LoggingHandler next w r
        = { w := w.WriteHeader StatusInternalServerError
            logs := [{ level := .Error, msg := "server recovered from panic", request := r,
                       status_code := StatusInternalServerError,
                       panic := some (.interfaceConversion "http.Flusher") }]
            nextCalls := 0, mw := none, panicked := none } := by
      unfold LoggingHandler LoggingHandler.body
      simp [hf]
    rw [hserved]
    refine ⟨fun _ => ⟨rfl, rfl, rfl, hcommit, rfl, _, rfl⟩, ?_, ?_⟩
    · exact ⟨fun h => absurd (show (0 : Nat) = 1 from h) (by decide), fun h => absurd h.1 hf⟩
    · exact ⟨fun _ h => hf h.1, fun _ => rfl⟩

/-- Witness of C10: a fresh sink that can flush but cannot be hijacked, as the recorder of
`net/http/httptest` is. -/
theorem LoggingHandler_capabilities_witness :
    (LoggingHandler { calls := [.WriteHeader 200, .Write "hello"], ending := .returns }
      (ResponseWriter.fresh true false none)
      { Method := "GET", URL := "/", Host := "", Proto := "HTTP/1.1", UserAgent := "" }).nextCalls
      = 0 ∧
    (LoggingHandler { calls := [.WriteHeader 200, .Write "hello"], ending := .returns }
      (ResponseWriter.fresh true false none)
      { Method := "GET", URL := "/", Host := "", Proto := "HTTP/1.1", UserAgent := "" }).w.status
      = some 500 :=
  ⟨((LoggingHandler_capabilities
      { calls := [.WriteHeader 200, .Write "hello"], ending := .returns }
      (ResponseWriter.fresh true false none)
      { Method := "GET", URL := "/", Host := "", Proto := "HTTP/1.1", UserAgent := "" }).1
      (by decide)).1,
   ((LoggingHandler_capabilities
      { calls := [.WriteHeader 200, .Write "hello"], ending := .returns }
      (ResponseWriter.fresh true false none)
      { Method := "GET", URL := "/", Host := "", Proto := "HTTP/1.1", UserAgent := "" }).1
      (by decide)).2.2.2.1 rfl rfl⟩

/-! ## Serving until a signal or a failure -/

theorem ServeWithShutdown_quiet (shutdown : Option GoError) (e : Event) (rest : List Event)
    (hq : e.quiet = true) :
    ServeWithShutdown shutdown (e :: rest) = ServeWithShutdown shutdown rest := by
  cases e with
  | signal => simp [Event.quiet] at hq
  | listenAndServeReturns err =>
    cases err with
    | none => rfl
    | some err =>
      have hc : err.isErrServerClosed = true := hq
      simp [ServeWithShutdown, hc]

theorem ServeWithShutdown_skip (shutdown : Option GoError) (pre rest : List Event)
    (hq : ∀ e ∈ pre, e.quiet = true) :
    ServeWithShutdown shutdown (pre ++ rest) = ServeWithShutdown shutdown rest := by
  induction pre with
  | nil => rfl
  | cons e pre ih =>
    rw [List.cons_append, ServeWithShutdown_quiet shutdown e _ (hq e (List.mem_cons_self e pre))]
    exact ih (fun x hx => hq x (List.mem_cons_of_mem e hx))

theorem ServeWithShutdown_nil_return (shutdown : Option GoError) (events : List Event)
    (h : ServeWithShutdown shutdown events = some none) :
    shutdown = none ∧
    ∃ pre post, events = pre ++ Event.signal :: post ∧ ∀ e ∈ pre, e.quiet = true := by
  induction events with
  | nil => simp [ServeWithShutdown] at h
  | cons e rest ih =>
    cases e with
    | signal =>
      cases shutdown with
      | none => exact ⟨rfl, [], rest, rfl, fun e he => absurd he (List.not_mem_nil e)⟩
      | some err => simp [ServeWithShutdown] at h
    | listenAndServeReturns err =>
      by_cases hq : (Event.listenAndServeReturns err).quiet = true
      · rw [ServeWithShutdown_quiet shutdown _ rest hq] at h
        obtain ⟨hs, pre, post, hev, hpre⟩ := ih h
        refine ⟨hs, Event.listenAndServeReturns err :: pre, post, by rw [hev]; rfl, ?_⟩
        intro x hx
        rcases List.mem_cons.1 hx with hx | hx
        · rw [hx]; exact hq
        · exact hpre x hx
      · cases err with
        | none => exact absurd rfl hq
        | some err =>
          have hc : err.isErrServerClosed = false := by
            cases hb : err.isErrServerClosed with
            | false => rfl
            | true => exact absurd hb hq
          simp [ServeWithShutdown, hc] at h

/-- C9: a run of `ServeWithShutdown` is decided by the first event that wakes its `select`.
It returns nil exactly when a signal arrives before any reported failure of `ListenAndServe`
and `Shutdown` returns nil. If the signal comes first and `Shutdown` returns an error (also for
a passed deadline), the result is that error wrapped as "server shutdown failed: ...". If
`ListenAndServe` returns an error other than `http.ErrServerClosed` before any signal, the
result is that error wrapped as "server listen and serve failed: ...". In neither failure case
is the result nil. -/
theorem ServeWithShutdown_result (shutdown : Option GoError) (events : List Event) :
    (ServeWithShutdown shutdown events = some none ↔
      (shutdown = none ∧
        ∃ pre post, events = pre ++ Event.signal :: post ∧ ∀ e ∈ pre, e.quiet = true)) ∧
    (∀ pre post err, events = pre ++ Event.signal :: post → (∀ e ∈ pre, e.quiet = true) →
      shutdown = some err →
      ServeWithShutdown shutdown events
        = some (some (.wrapError ("server shutdown failed: " ++ err.Error) err)) ∧
      ServeWithShutdown shutdown events ≠ some none) ∧
    (∀ pre post err, events = pre ++ Event.listenAndServeReturns (some err) :: post →
      (∀ e ∈ pre, e.quiet = true) → err.isErrServerClosed = false →
      ServeWithShutdown shutdown events
        = some (some (.wrapError ("server listen and serve failed: " ++ err.Error) err)) ∧
      ServeWithShutdown shutdown events ≠ some none) := by
  refine ⟨⟨ServeWithShutdown_nil_return shutdown events, ?_⟩, ?_, ?_⟩
  · rintro ⟨hs, pre, post, hev, hpre⟩
    rw [hev, ServeWithShutdown_skip shutdown pre _ hpre, hs]
    rfl
  · intro pre post err hev hpre hs
    have hres : ServeWithShutdown shutdown events
        = some (some (.wrapError ("server shutdown failed: " ++ err.Error) err)) := by
      rw [hev, ServeWithShutdown_skip shutdown pre _ hpre, hs]
      rfl
    refine ⟨hres, ?_⟩
    rw [hres]
    intro h
    cases h
  · intro pre post err hev hpre hc
    have hres : ServeWithShutdown shutdown events
        = some (some (.wrapError ("server listen and serve failed: " ++ err.Error) err)) := by
      rw [hev, ServeWithShutdown_skip shutdown pre _ hpre]
      simp [ServeWithShutdown, hc, Errorf]
    refine ⟨hres, ?_⟩
    rw [hres]
    intro h
    cases h

/-- Witness of C9: a signal after the server was closed elsewhere, with a clean drain, gives
nil; a signal followed by a drain that misses its deadline gives the wrapped error. -/
theorem ServeWithShutdown_result_witness :
    ServeWithShutdown none
      [Event.listenAndServeReturns (some GoError.ErrServerClosed), Event.signal] = some none ∧
    ServeWithShutdown (some (GoError.errorString "context deadline exceeded")) [Event.signal]
      = some (some (.wrapError "server shutdown failed: context deadline exceeded"
          (GoError.errorString "context deadline exceeded"))) :=
  ⟨(ServeWithShutdown_result none
      [Event.listenAndServeReturns (some GoError.ErrServerClosed), Event.signal]).1.2
      ⟨rfl, [Event.listenAndServeReturns (some GoError.ErrServerClosed)], [], rfl,
        fun e he => by
          rcases List.mem_singleton.1 he with rfl
          rfl⟩,
   ((ServeWithShutdown_result (some (GoError.errorString "context deadline exceeded"))
      [Event.signal]).2.1 [] [] (GoError.errorString "context deadline exceeded") rfl
      (fun e he => absurd he (List.not_mem_nil e)) rfl).1⟩

end xhttp
